import Mathlib

/-!
Shallow embedding of the ICE candidate core (`src/candidate/candidate_base.rs`)
of the `laizy/ice` repository, together with theorems checking the
natural-language specification against it.

The repository ships only `candidate_base.rs` (and a state test file); the
enums `CandidateType`, `TcpType`, `NetworkType`, the constant
`DEFAULT_LOCAL_PREFERENCE` and the related-address record live in sibling
modules that are not part of the sources.  Those are modelled from the
specification text and marked as such in their doc comments.  Machine
integers (`u16`, `u32`, `u64`) are modelled as `Nat` with explicit
`% 2 ^ w` at the points where the Rust code can wrap.
-/

namespace Ice

/-- Modelled from the spec: candidate type, `type ∈ {Host, ServerReflexive,
PeerReflexive, Relay}` plus the `Unspecified` variant that
`candidate_base.rs` pattern-matches on. -/
inductive CandidateType where
  | Unspecified
  | Host
  | ServerReflexive
  | PeerReflexive
  | Relay
  deriving DecidableEq, Repr

/-- Modelled from the spec: "Type preferences: Host=126, PeerReflexive=110,
ServerReflexive=100, Relay=0"; the `Unspecified` variant gets 0. -/
def CandidateType.preference : CandidateType → Nat
  | .Host => 126
  | .PeerReflexive => 110
  | .ServerReflexive => 100
  | .Relay => 0
  | .Unspecified => 0

/-- Modelled from the spec: the SDP type strings used in the marshal form
`typ host` etc. (scenario S1 shows `typ host`); `srflx`, `prflx`, `relay`
are the standard SDP names for the remaining spec types. -/
def CandidateType.toString : CandidateType → String
  | .Host => "host"
  | .ServerReflexive => "srflx"
  | .PeerReflexive => "prflx"
  | .Relay => "relay"
  | .Unspecified => "Unknown candidate type"

/-- Modelled from the spec: `TCP{Active,Passive,SimultaneousOpen,Unspecified}`. -/
inductive TcpType where
  | Unspecified
  | Active
  | Passive
  | SimultaneousOpen
  deriving DecidableEq, Repr

/-- Modelled from the spec: the SDP `tcptype` tokens of RFC 6544
(`active`, `passive`, `so`). -/
def TcpType.toString : TcpType → String
  | .Active => "active"
  | .Passive => "passive"
  | .SimultaneousOpen => "so"
  | .Unspecified => "unspecified"

/-- Modelled from the spec: transport ∈ {UDP, TCP} × network family ∈
{IPv4, IPv6}, plus an unspecified default (the Rust field is an `AtomicU8`
holding the discriminant, zero-initialised). -/
inductive NetworkType where
  | Unspecified
  | Udp4
  | Udp6
  | Tcp4
  | Tcp6
  deriving DecidableEq, Repr

/-- Modelled from the spec: whether the network type is a TCP one. -/
def NetworkType.is_tcp : NetworkType → Bool
  | .Tcp4 => true
  | .Tcp6 => true
  | _ => false

/-- Modelled from the spec: the `<transport>` token of the marshal string
(scenario S1 shows `1 udp`). -/
def NetworkType.network_short : NetworkType → String
  | .Udp4 => "udp"
  | .Udp6 => "udp"
  | .Tcp4 => "tcp"
  | .Tcp6 => "tcp"
  | .Unspecified => "unspecified"

/-- Modelled from the spec: the network-type string hashed into the
foundation (transport plus family). -/
def NetworkType.toString : NetworkType → String
  | .Udp4 => "udp4"
  | .Udp6 => "udp6"
  | .Tcp4 => "tcp4"
  | .Tcp6 => "tcp6"
  | .Unspecified => "unspecified"

/-- Modelled from the spec: `related_address (for non-host types: the base
address this was derived from)`. -/
structure CandidateRelatedAddress where
  address : String
  port : Nat
  deriving DecidableEq, Repr

/-- Modelled from the spec: the UDP local preference, "For UDP, local_pref
= 65535". -/
def DEFAULT_LOCAL_PREFERENCE : Nat := 65535

/-- Error kinds reachable from the embedded operations (`ERR_CLOSED` and a
transport send failure surfaced through `?`). -/
inductive IceError where
  | Closed
  | SendFailed
  deriving DecidableEq, Repr

/-- The pure projection of `CandidateBase` (candidate_base.rs, lines
31-58).  Atomics become plain fields; `closed_ch: Mutex<Option<Sender>>`
becomes the flag `closed_ch_open` (`true` iff the option is `Some`);
the optional packet connection and relay client become presence flags,
since only their presence steers the control flow under study.  Field
defaults mirror `impl Default for CandidateBase` (lines 60-88). -/
structure CandidateBase where
  id : String := ""
  network_type : NetworkType := .Unspecified
  candidate_type : CandidateType := .Unspecified
  component : Nat := 0
  address : String := ""
  port : Nat := 0
  related_address : Option CandidateRelatedAddress := none
  tcp_type : TcpType := .Unspecified
  last_sent : Nat := 0
  last_received : Nat := 0
  has_conn : Bool := false
  closed_ch_open : Bool := false
  foundation_override : String := ""
  priority_override : Nat := 0
  network : String := ""
  has_relay : Bool := false
  deriving DecidableEq, Repr

/-- UTF-8 encoding of one character, as `str::as_bytes` exposes it. -/
def charUtf8 (ch : Char) : List Nat :=
  let n := ch.toNat
  if n < 0x80 then [n]
  else if n < 0x800 then
    [0xC0 ||| (n >>> 6), 0x80 ||| (n &&& 0x3F)]
  else if n < 0x10000 then
    [0xE0 ||| (n >>> 12), 0x80 ||| ((n >>> 6) &&& 0x3F), 0x80 ||| (n &&& 0x3F)]
  else
    [0xF0 ||| (n >>> 18), 0x80 ||| ((n >>> 12) &&& 0x3F),
     0x80 ||| ((n >>> 6) &&& 0x3F), 0x80 ||| (n &&& 0x3F)]

/-- UTF-8 bytes of a string (`str::as_bytes`). -/
def strBytes (s : String) : List Nat :=
  (s.data.map charUtf8).flatten

/-- One shift-and-conditional-xor step of the reflected CRC-32C
(Castagnoli) computation; 0x82F63B78 is the reflected `CRC_32_ISCSI`
polynomial 0x1EDC6F41. -/
def crc32cStep (c : Nat) : Nat :=
  if c % 2 = 1 then (c / 2) ^^^ 0x82F63B78 else c / 2

/-- Fold one input byte into the running CRC-32C state. -/
def crc32cByte (c b : Nat) : Nat :=
  crc32cStep^[8] (c ^^^ (b % 256))

/-- `Crc::<u32>::new(&CRC_32_ISCSI).checksum(buf)`: reflected CRC-32C with
initial value and final xor 0xFFFFFFFF. -/
def crc32c (bytes : List Nat) : Nat :=
  (bytes.foldl crc32cByte 0xFFFFFFFF) ^^^ 0xFFFFFFFF

/-- `CandidateBase::local_preference` (candidate_base.rs, lines 331-392):
for TCP network types, `(1 << 13) * direction_pref + other_pref` with
`other_pref = 8191` and the direction preference matched on the candidate
type and TCP type; otherwise `DEFAULT_LOCAL_PREFERENCE`.  The result is a
`u16` and never wraps (max value 57343). -/
def CandidateBase.local_preference (c : CandidateBase) : Nat :=
  if c.network_type.is_tcp then
    let other_pref : Nat := 8191
    let direction_pref : Nat :=
      match c.candidate_type with
      | CandidateType.Host | CandidateType.Relay =>
        match c.tcp_type with
        | TcpType.Active => 6
        | TcpType.Passive => 4
        | TcpType.SimultaneousOpen => 2
        | TcpType.Unspecified => 0
      | CandidateType.PeerReflexive | CandidateType.ServerReflexive =>
        match c.tcp_type with
        | TcpType.SimultaneousOpen => 6
        | TcpType.Active => 4
        | TcpType.Passive => 2
        | TcpType.Unspecified => 0
      | CandidateType.Unspecified => 0
    (1 <<< 13) * direction_pref + other_pref
  else
    DEFAULT_LOCAL_PREFERENCE

/-- `Candidate::priority` for `CandidateBase` (candidate_base.rs, lines
175-189): a nonzero `priority_override` is returned as-is; otherwise
`(1 << 24) * type_preference + (1 << 8) * local_preference +
(256 - component)` in `u32` arithmetic.  `256 - u32::from(component)`
wraps for components above 256, and the outer sum wraps with it, so both
are taken `% 2 ^ 32` (release-mode `u32` semantics). -/
def CandidateBase.priority (c : CandidateBase) : Nat :=
  if c.priority_override ≠ 0 then c.priority_override
  else
    ((1 <<< 24) * c.candidate_type.preference
        + (1 <<< 8) * c.local_preference
        + (256 + (2 ^ 32 - c.component % 2 ^ 32)) % 2 ^ 32)
      % 2 ^ 32

/-- `Candidate::foundation` for `CandidateBase` (candidate_base.rs, lines
118-131): a non-empty override wins; otherwise the decimal rendering of
the CRC-32C checksum of type string ++ address ++ network-type string. -/
def CandidateBase.foundation (c : CandidateBase) : String :=
  if c.foundation_override ≠ "" then c.foundation_override
  else
    let buf := strBytes c.candidate_type.toString
        ++ strBytes c.address ++ strBytes c.network_type.toString
    Nat.repr (crc32c buf)

/-- `Candidate::marshal` for `CandidateBase` (candidate_base.rs, lines
206-231): the SDP candidate-attribute string, with the `tcptype` token
appended when the TCP type is not `Unspecified` and the `raddr`/`rport`
tokens appended when a related address is present. -/
def CandidateBase.marshal (c : CandidateBase) : String :=
  let val := c.foundation ++ " " ++ Nat.repr c.component ++ " "
      ++ c.network_type.network_short ++ " " ++ Nat.repr c.priority ++ " "
      ++ c.address ++ " " ++ Nat.repr c.port ++ " typ "
      ++ c.candidate_type.toString
  let val := if c.tcp_type ≠ TcpType.Unspecified then
      val ++ " tcptype " ++ c.tcp_type.toString
    else val
  match c.related_address with
  | some ra => val ++ " raddr " ++ ra.address ++ " rport " ++ Nat.repr ra.port
  | none => val

/-- Result of `Candidate::close`: the returned `Result`, the candidate
state afterwards, and whether `relay_client.close()` was invoked during
the call. -/
structure CloseResult where
  res : Except IceError Unit
  state : CandidateBase
  relay_client_closed : Bool
  deriving Repr

/-- `Candidate::close` for `CandidateBase` (candidate_base.rs, lines
239-253): if `closed_ch` is already `None` the call fails with
`ERR_CLOSED` and changes nothing; otherwise the sender is taken out of
the option and, when a relay client is owned, its `close()` is awaited
and its result returned (`relayRes` stands for that external call's
outcome). -/
def CandidateBase.close (c : CandidateBase) (relayRes : Except IceError Unit) :
    CloseResult :=
  if c.closed_ch_open = false then
    { res := Except.error IceError.Closed, state := c, relay_client_closed := false }
  else
    let c' := { c with closed_ch_open := false }
    if c.has_relay then
      { res := relayRes, state := c', relay_client_closed := true }
    else
      { res := Except.ok (), state := c', relay_client_closed := false }

/-- `CandidateBase::set_last_received` (candidate_base.rs, lines 319-323):
stores `d.as_nanos() as u64`, i.e. the nanosecond count truncated to 64
bits. -/
def CandidateBase.set_last_received (c : CandidateBase) (nanos : Nat) :
    CandidateBase :=
  { c with last_received := nanos % 2 ^ 64 }

/-- `CandidateBase::set_last_sent` (candidate_base.rs, lines 325-328). -/
def CandidateBase.set_last_sent (c : CandidateBase) (nanos : Nat) :
    CandidateBase :=
  { c with last_sent := nanos % 2 ^ 64 }

/-- `Candidate::seen` for `CandidateBase` (candidate_base.rs, lines
255-266): `now` is the wall clock's nanoseconds since the Unix epoch
(clamped to 0 on clock error, hence a `Nat`); outbound updates
`last_sent`, inbound updates `last_received`. -/
def CandidateBase.seen (c : CandidateBase) (now : Nat) (outbound : Bool) :
    CandidateBase :=
  if outbound then c.set_last_sent now else c.set_last_received now

/-- `Candidate::write_to` for `CandidateBase` (candidate_base.rs, lines
268-281): with an owned connection the bytes are sent and a send error
propagates immediately through `?` (before `seen` runs); without one,
`n = 0`.  On success `seen(true)` runs and `Ok(n)` is returned.
`sendRes` stands for the outcome of the external `conn.send_to` call,
consulted only when a connection is present. -/
def CandidateBase.write_to (c : CandidateBase) (sendRes : Except IceError Nat)
    (now : Nat) : Except IceError Nat × CandidateBase :=
  if c.has_conn then
    match sendRes with
    | Except.error e => (Except.error e, c)
    | Except.ok n => (Except.ok n, c.seen now true)
  else
    (Except.ok 0, c.seen now true)

/-- A decoded STUN message (opaque here; only successful decoding vs.
failure steers the receive path). -/
structure StunMessage where
  raw : List Nat
  deriving DecidableEq, Repr

/-- The observable effect of one `handle_inbound_candidate_msg` call:
whether `agent_internal.handle_inbound` was invoked, what (if anything)
was appended to the agent's delivery buffer, and whether a warning was
logged.  The Rust function returns `()`, so no error can be surfaced to
any caller. -/
structure InboundEffect where
  agent_invoked : Bool
  buffer_appended : Option (List Nat)
  warned : Bool
  deriving DecidableEq, Repr

/-- `CandidateBase::handle_inbound_candidate_msg` (candidate_base.rs,
lines 437-477).  `isStun` is `stun::message::is_message(buf)`; `decoded`
is the outcome of `Message::decode` (`none` = decode error); `valid` is
`validate_non_stun_traffic`; `writeOk` is whether the buffer write
succeeded (`false` = `ErrFull`-style failure).  Each external outcome is
a parameter, the branching is the source's. -/
def handle_inbound_candidate_msg (isStun : Bool) (decoded : Option StunMessage)
    (valid : Bool) (writeOk : Bool) (buf : List Nat) : InboundEffect :=
  if isStun then
    match decoded with
    | none =>
      { agent_invoked := false, buffer_appended := none, warned := true }
    | some _ =>
      { agent_invoked := true, buffer_appended := none, warned := false }
  else
    if !valid then
      { agent_invoked := false, buffer_appended := none, warned := true }
    else if writeOk then
      { agent_invoked := false, buffer_appended := some buf, warned := false }
    else
      { agent_invoked := false, buffer_appended := none, warned := true }

/-- A concrete UDP host candidate (open, with an owned connection). -/
def sampleHostUdp : CandidateBase :=
  { network_type := .Udp4, candidate_type := .Host, component := 1,
    address := "192.168.0.1", port := 19216,
    has_conn := true, closed_ch_open := true }

/-- `sampleHostUdp` with a nonzero priority override. -/
def overrideCand : CandidateBase :=
  { sampleHostUdp with priority_override := 1 }

/-- A concrete server-reflexive candidate: its own address is the
server-assigned one, its base is the related address. -/
def srflxA : CandidateBase :=
  { network_type := .Udp4, candidate_type := .ServerReflexive, component := 1,
    address := "203.0.113.5", port := 40000,
    related_address := some { address := "10.0.0.1", port := 5000 },
    closed_ch_open := true }

/-- A second server-reflexive candidate with the same base (related
address), same type and same network type, but a different
server-assigned address. -/
def srflxB : CandidateBase :=
  { srflxA with address := "203.0.113.6", port := 40001 }

/-- A concrete TCP host candidate with `tcptype active`. -/
def tcpHostActive : CandidateBase :=
  { network_type := .Tcp4, candidate_type := .Host, component := 1,
    address := "192.168.0.1", port := 9, tcp_type := .Active,
    closed_ch_open := true }

/-- A concrete relay candidate owning a TURN client. -/
def relayCand : CandidateBase :=
  { network_type := .Udp4, candidate_type := .Relay, component := 1,
    address := "198.51.100.9", port := 3478,
    related_address := some { address := "192.168.0.1", port := 19216 },
    has_relay := true, closed_ch_open := true }

lemma CandidateType.preference_le (t : CandidateType) : t.preference ≤ 126 := by
  cases t <;> simp [CandidateType.preference]

lemma CandidateBase.local_preference_le (c : CandidateBase) :
    c.local_preference ≤ 65535 := by
  unfold CandidateBase.local_preference
  split
  · rcases c.candidate_type <;> rcases c.tcp_type <;> simp
  · simp [DEFAULT_LOCAL_PREFERENCE]

lemma CandidateBase.local_preference_congr (c c' : CandidateBase)
    (h1 : c.network_type = c'.network_type)
    (h2 : c.candidate_type = c'.candidate_type)
    (h3 : c.tcp_type = c'.tcp_type) :
    c.local_preference = c'.local_preference := by
  unfold CandidateBase.local_preference
  rw [h1, h2, h3]

set_option maxRecDepth 1000000

/-- The CRC-32C check value: the checksum of "123456789" is 0xE3069283,
validating the embedding of `CRC_32_ISCSI`. -/
theorem crc32c_check_value : crc32c (strBytes "123456789") = 0xE3069283 := by
  decide

/-- Claim C6: `close()` on an open candidate succeeds, takes the close
channel, and closes the owned TURN relay client exactly when one is
owned; a second call (and, since the state is then unchanged, every
later one) fails with `Closed` without touching the relay client, and in
general any call on an already-closed candidate fails with `Closed`,
changes nothing and does not close the relay client. -/
theorem close_idempotent (c : CandidateBase)
    (relayRes relayRes2 : Except IceError Unit)
    (hopen : c.closed_ch_open = true) (hok : relayRes = Except.ok ()) :
    (c.close relayRes).res = Except.ok ()
    ∧ (c.close relayRes).state.closed_ch_open = false
    ∧ (c.close relayRes).relay_client_closed = c.has_relay
    ∧ ((c.close relayRes).state.close relayRes2).res = Except.error IceError.Closed
    ∧ ((c.close relayRes).state.close relayRes2).relay_client_closed = false
    ∧ ((c.close relayRes).state.close relayRes2).state = (c.close relayRes).state
    ∧ (∀ c' : CandidateBase, c'.closed_ch_open = false →
        (c'.close relayRes2).res = Except.error IceError.Closed
        ∧ (c'.close relayRes2).relay_client_closed = false
        ∧ (c'.close relayRes2).state = c') := by
  subst hok
  have hgen : ∀ c' : CandidateBase, c'.closed_ch_open = false →
      (c'.close relayRes2).res = Except.error IceError.Closed
      ∧ (c'.close relayRes2).relay_client_closed = false
      ∧ (c'.close relayRes2).state = c' := by
    intro c' hclosed
    simp [CandidateBase.close, hclosed]
  refine ⟨?_, ?_, ?_, ?_, ?_, ?_, hgen⟩ <;>
    cases hr : c.has_relay <;>
    simp [CandidateBase.close, hopen, hr]

/-- Witness for C6: closing the concrete relay candidate succeeds and
closes its TURN client; the second close fails with `Closed` and leaves
the client alone. -/
theorem close_idempotent_witness :
    (relayCand.close (Except.ok ())).res = Except.ok ()
    ∧ (relayCand.close (Except.ok ())).relay_client_closed = true
    ∧ ((relayCand.close (Except.ok ())).state.close (Except.ok ())).res
        = Except.error IceError.Closed
    ∧ ((relayCand.close (Except.ok ())).state.close
        (Except.ok ())).relay_client_closed = false := by
  obtain ⟨h1, _, h3, h4, h5, _⟩ :=
    close_idempotent relayCand (Except.ok ()) (Except.ok ()) rfl rfl
  exact ⟨h1, h3, h4, h5⟩

/-- Claim C7: an inbound datagram classified as STUN whose decoding
fails is logged (warned) and dropped: the agent is not invoked and
nothing is appended to the delivery buffer.  (The Rust function returns
`()`, so no error can be surfaced to the consumer by construction.) -/
theorem stun_decode_failure_dropped (buf : List Nat) (valid writeOk : Bool) :
    handle_inbound_candidate_msg true none valid writeOk buf =
      { agent_invoked := false, buffer_appended := none, warned := true } := by
  simp [handle_inbound_candidate_msg]

/-- Claim C8: `seen` with the outbound direction sets `last_sent` to the
current time and leaves every other field (including `last_received`)
unchanged; `seen` with the inbound direction sets `last_received` and
leaves every other field unchanged.  Stated as record-update equalities,
which carry the full frame condition. -/
theorem seen_updates_one_timestamp (c : CandidateBase) (now : Nat)
    (h : now < 2 ^ 64) :
    c.seen now true = { c with last_sent := now }
    ∧ c.seen now false = { c with last_received := now } := by
  constructor <;>
    (simp [CandidateBase.seen, CandidateBase.set_last_sent,
      CandidateBase.set_last_received]) <;> omega

/-- Witness for C8: `seen` on the concrete host candidate at time 12345
nanoseconds. -/
theorem seen_updates_one_timestamp_witness :
    sampleHostUdp.seen 12345 true = { sampleHostUdp with last_sent := 12345 }
    ∧ sampleHostUdp.seen 12345 false
        = { sampleHostUdp with last_received := 12345 } :=
  seen_updates_one_timestamp sampleHostUdp 12345 (by decide)

/-- Claim C10: `write_to` on a candidate without an owned packet
connection returns `Ok(0)` (no error) and still updates `last_sent` to
the current time, all other fields unchanged. -/
theorem write_to_no_conn (c : CandidateBase) (sendRes : Except IceError Nat)
    (now : Nat) (h : c.has_conn = false) (hnow : now < 2 ^ 64) :
    c.write_to sendRes now = (Except.ok 0, { c with last_sent := now }) := by
  simp [CandidateBase.write_to, h, CandidateBase.seen,
    CandidateBase.set_last_sent]
  omega

/-- Witness for C10: `write_to` on the concrete connection-less
server-reflexive candidate. -/
theorem write_to_no_conn_witness :
    srflxA.write_to (Except.error IceError.SendFailed) 777 =
      (Except.ok 0, { srflxA with last_sent := 777 }) :=
  write_to_no_conn srflxA (Except.error IceError.SendFailed) 777 rfl (by decide)

/-- Counterexample for C1 as stated: a candidate constructed with a
nonzero priority override does not get the type/local-preference/
component formula — `overrideCand.priority()` is 1 while the formula
value is 2130706431. -/
theorem priority_formula_counterexample :
    overrideCand.priority ≠
      (1 <<< 24) * overrideCand.candidate_type.preference
        + (1 <<< 8) * overrideCand.local_preference
        + (256 - overrideCand.component) := by
  decide

/-- Claim C1 (amended): for every candidate whose priority override is
zero, `priority()` is `(1<<24)·type_pref + (1<<8)·local_pref +
(256 − component)` in 32-bit wrapping arithmetic (exact whenever
`component ≤ 256`); the type preferences are Host=126,
PeerReflexive=110, ServerReflexive=100, Relay=0; and the result is a
deterministic pure function of (type, transport, tcp_type, component,
local_pref). -/
theorem priority_formula (c c' : CandidateBase)
    (h : c.priority_override = 0) :
    (c.priority : Int) =
      ((1 <<< 24) * (c.candidate_type.preference : Int)
        + (1 <<< 8) * (c.local_preference : Int)
        + 256 - (c.component : Int)) % 2 ^ 32
    ∧ CandidateType.preference .Host = 126
    ∧ CandidateType.preference .PeerReflexive = 110
    ∧ CandidateType.preference .ServerReflexive = 100
    ∧ CandidateType.preference .Relay = 0
    ∧ (c'.priority_override = 0 → c'.candidate_type = c.candidate_type →
        c'.network_type = c.network_type → c'.tcp_type = c.tcp_type →
        c'.component = c.component → c'.priority = c.priority) := by
  refine ⟨?_, rfl, rfl, rfl, rfl, ?_⟩
  · have hp : c.candidate_type.preference ≤ 126 :=
      CandidateType.preference_le _
    have hl : c.local_preference ≤ 65535 := CandidateBase.local_preference_le _
    unfold CandidateBase.priority
    rw [if_neg (by simp [h])]
    generalize c.candidate_type.preference = p at hp
    generalize c.local_preference = l at hl
    generalize c.component = k
    simp only [Nat.shiftLeft_eq]
    push_cast
    omega
  · intro h' e1 e2 e3 e4
    have hlp : c'.local_preference = c.local_preference :=
      CandidateBase.local_preference_congr c' c e2 e1 e3
    unfold CandidateBase.priority
    rw [h, h', e1, e4, hlp]

/-- Witness for C1 (amended): the concrete open UDP host candidate has
zero override, and its priority 2130706431 satisfies the amended
formula. -/
theorem priority_formula_witness :
    sampleHostUdp.priority_override = 0 ∧
    ((sampleHostUdp.priority : Int) =
      ((1 <<< 24) * (sampleHostUdp.candidate_type.preference : Int)
        + (1 <<< 8) * (sampleHostUdp.local_preference : Int)
        + 256 - (sampleHostUdp.component : Int)) % 2 ^ 32
    ∧ CandidateType.preference .Host = 126
    ∧ CandidateType.preference .PeerReflexive = 110
    ∧ CandidateType.preference .ServerReflexive = 100
    ∧ CandidateType.preference .Relay = 0
    ∧ (sampleHostUdp.priority_override = 0 →
        sampleHostUdp.candidate_type = sampleHostUdp.candidate_type →
        sampleHostUdp.network_type = sampleHostUdp.network_type →
        sampleHostUdp.tcp_type = sampleHostUdp.tcp_type →
        sampleHostUdp.component = sampleHostUdp.component →
        sampleHostUdp.priority = sampleHostUdp.priority)) :=
  ⟨rfl, priority_formula sampleHostUdp sampleHostUdp rfl⟩

/-- Claim C9: a nonzero priority override is returned by `priority()`
as-is, bypassing the formula entirely; a zero override is treated as
absent and the wrapping `u32` formula is used. -/
theorem priority_override_behavior (c : CandidateBase) :
    (c.priority_override ≠ 0 → c.priority = c.priority_override)
    ∧ (c.priority_override = 0 →
        c.priority =
          ((1 <<< 24) * c.candidate_type.preference
              + (1 <<< 8) * c.local_preference
              + (256 + (2 ^ 32 - c.component % 2 ^ 32)) % 2 ^ 32)
            % 2 ^ 32) := by
  constructor <;> intro h <;> simp [CandidateBase.priority, h]

/-- Witness for C9: the override candidate's priority is its override
value 1, not the 2130706431 the formula would give. -/
theorem priority_override_behavior_witness :
    overrideCand.priority = overrideCand.priority_override
    ∧ sampleHostUdp.priority =
        ((1 <<< 24) * sampleHostUdp.candidate_type.preference
            + (1 <<< 8) * sampleHostUdp.local_preference
            + (256 + (2 ^ 32 - sampleHostUdp.component % 2 ^ 32)) % 2 ^ 32)
          % 2 ^ 32 :=
  ⟨(priority_override_behavior overrideCand).1 (by decide),
   (priority_override_behavior sampleHostUdp).2 rfl⟩

lemma strBytes_append (s t : String) :
    strBytes (s ++ t) = strBytes s ++ strBytes t := by
  cases s with
  | mk a =>
    cases t with
    | mk b =>
      show strBytes (String.mk (a ++ b)) = _
      simp [strBytes]

/-- Counterexample for C2 as stated: for a server-reflexive candidate
the base address (the related address the candidate was derived from)
differs from its own server-assigned address, and `foundation()` hashes
the latter: `srflxA`'s foundation is "2653516277" (CRC-32C of
"srflx203.0.113.5udp4"), not the "2492318370" that hashing the base
address string "10.0.0.1" would give. -/
theorem foundation_claim_counterexample :
    srflxA.foundation_override = ""
    ∧ srflxA.related_address
        = some { address := "10.0.0.1", port := 5000 }
    ∧ srflxA.foundation = "2653516277"
    ∧ Nat.repr (crc32c (strBytes (srflxA.candidate_type.toString
        ++ "10.0.0.1" ++ srflxA.network_type.toString))) = "2492318370"
    ∧ srflxA.foundation ≠
        Nat.repr (crc32c (strBytes (srflxA.candidate_type.toString
          ++ "10.0.0.1" ++ srflxA.network_type.toString))) := by
  refine ⟨rfl, rfl, ?_, ?_, ?_⟩ <;> decide

/-- Claim C2 (amended): without a foundation override, `foundation()` is
the decimal rendering of the CRC-32-Castagnoli checksum of the
concatenation of the type string, the candidate's own (possibly
server-assigned) address string, and the network-type string; a
non-empty override wins. -/
theorem foundation_formula (c : CandidateBase) :
    (c.foundation_override = "" →
      c.foundation =
        Nat.repr (crc32c (strBytes (c.candidate_type.toString
          ++ c.address ++ c.network_type.toString))))
    ∧ (c.foundation_override ≠ "" → c.foundation = c.foundation_override) := by
  constructor <;> intro h <;>
    simp [CandidateBase.foundation, h, strBytes_append]

/-- Witness for C2: the concrete host candidate's foundation is the
CRC-32C of "host192.168.0.1udp4" rendered in decimal, namely
"424007488"; with an override, the override is returned. -/
theorem foundation_formula_witness :
    sampleHostUdp.foundation
      = Nat.repr (crc32c (strBytes (sampleHostUdp.candidate_type.toString
          ++ sampleHostUdp.address ++ sampleHostUdp.network_type.toString)))
    ∧ sampleHostUdp.foundation = "424007488"
    ∧ ({ sampleHostUdp with foundation_override := "42"} : CandidateBase).foundation
        = "42" :=
  ⟨(foundation_formula sampleHostUdp).1 rfl, by decide,
   (foundation_formula _).2 (by decide)⟩

/-- Counterexample for C3 as stated: two server-reflexive candidates
with the same type, the same base (related) address and the same
network type but different server-assigned own addresses get different
foundations, because the code hashes the candidate's own `address`
field, not its base. -/
theorem foundation_base_counterexample :
    srflxA.candidate_type = srflxB.candidate_type
    ∧ srflxA.related_address = srflxB.related_address
    ∧ srflxA.network_type = srflxB.network_type
    ∧ srflxA.foundation_override = "" ∧ srflxB.foundation_override = ""
    ∧ srflxA.foundation ≠ srflxB.foundation := by
  refine ⟨rfl, rfl, rfl, rfl, rfl, ?_⟩
  decide

/-- Claim C3 (amended): two candidates without foundation overrides that
have identical candidate type, identical own address (which for host
candidates is the base address) and identical network type get
identical foundations, even when their ports, components or related
addresses differ. -/
theorem foundation_same_inputs (c c' : CandidateBase)
    (h0 : c.foundation_override = "") (h0' : c'.foundation_override = "")
    (h1 : c.candidate_type = c'.candidate_type)
    (h2 : c.address = c'.address)
    (h3 : c.network_type = c'.network_type) :
    c.foundation = c'.foundation := by
  simp [CandidateBase.foundation, h0, h0', h1, h2, h3]

/-- Witness for C3 (amended): `srflxA` and a copy of it with a different
port, component and related address still share the foundation. -/
theorem foundation_same_inputs_witness :
    srflxA.foundation =
      ({ srflxA with
         port := 41001, component := 2,
         related_address := some { address := "10.0.0.7", port := 5001 } }
        : CandidateBase).foundation :=
  foundation_same_inputs srflxA _ rfl rfl rfl rfl rfl

/-- Claim C4: for every TCP candidate, `local_preference()` is
`(1<<13)·direction_pref + 8191` with the direction preference given by
candidate type and TCP type (Host/Relay: Active=6, Passive=4,
SimultaneousOpen=2; ServerReflexive/PeerReflexive: SimultaneousOpen=6,
Active=4, Passive=2); for every non-TCP (UDP) candidate it is 65535. -/
theorem local_preference_spec (c : CandidateBase) :
    (c.network_type.is_tcp = true →
      ((c.candidate_type = CandidateType.Host
          ∨ c.candidate_type = CandidateType.Relay) →
        (c.tcp_type = TcpType.Active →
          c.local_preference = (1 <<< 13) * 6 + 8191)
        ∧ (c.tcp_type = TcpType.Passive →
          c.local_preference = (1 <<< 13) * 4 + 8191)
        ∧ (c.tcp_type = TcpType.SimultaneousOpen →
          c.local_preference = (1 <<< 13) * 2 + 8191))
      ∧ ((c.candidate_type = CandidateType.ServerReflexive
          ∨ c.candidate_type = CandidateType.PeerReflexive) →
        (c.tcp_type = TcpType.SimultaneousOpen →
          c.local_preference = (1 <<< 13) * 6 + 8191)
        ∧ (c.tcp_type = TcpType.Active →
          c.local_preference = (1 <<< 13) * 4 + 8191)
        ∧ (c.tcp_type = TcpType.Passive →
          c.local_preference = (1 <<< 13) * 2 + 8191)))
    ∧ (c.network_type.is_tcp = false → c.local_preference = 65535) := by
  refine ⟨fun htcp => ⟨?_, ?_⟩, fun hudp => ?_⟩
  · rintro (hct | hct) <;> refine ⟨fun htt => ?_, fun htt => ?_, fun htt => ?_⟩ <;>
      simp [CandidateBase.local_preference, htcp, hct, htt]
  · rintro (hct | hct) <;> refine ⟨fun htt => ?_, fun htt => ?_, fun htt => ?_⟩ <;>
      simp [CandidateBase.local_preference, htcp, hct, htt]
  · simp [CandidateBase.local_preference, hudp, DEFAULT_LOCAL_PREFERENCE]

/-- Witness for C4: the concrete active TCP host candidate has local
preference `(1<<13)·6 + 8191 = 57343`, and the concrete UDP host
candidate has 65535. -/
theorem local_preference_spec_witness :
    tcpHostActive.local_preference = (1 <<< 13) * 6 + 8191
    ∧ sampleHostUdp.local_preference = 65535 :=
  ⟨(((local_preference_spec tcpHostActive).1 rfl).1 (Or.inl rfl)).1 rfl,
   (local_preference_spec sampleHostUdp).2 rfl⟩

/-- Claim C5: `marshal()` is the SDP candidate-attribute string
`<foundation> <component> <transport> <priority> <address> <port> typ
<type>`, followed by ` tcptype <tcp>` exactly when the TCP type is not
`Unspecified`, followed by ` raddr <addr> rport <port>` exactly when a
related address is present. -/
theorem marshal_format (c : CandidateBase) :
    c.marshal =
      c.foundation ++ " " ++ Nat.repr c.component ++ " "
        ++ c.network_type.network_short ++ " " ++ Nat.repr c.priority ++ " "
        ++ c.address ++ " " ++ Nat.repr c.port ++ " typ "
        ++ c.candidate_type.toString
      ++ (if c.tcp_type ≠ TcpType.Unspecified then
            " tcptype " ++ c.tcp_type.toString
          else "")
      ++ (match c.related_address with
          | some ra => " raddr " ++ ra.address ++ " rport " ++ Nat.repr ra.port
          | none => "") := by
  unfold CandidateBase.marshal
  rcases c.related_address with _ | ra <;>
    by_cases h : c.tcp_type = TcpType.Unspecified <;>
    simp [h, String.append_assoc]

/-- Witness for C5 is not required (no hypotheses), but the concrete
marshal strings fix the format at both option settings: the plain UDP
host candidate and the TCP relay-free variant with a related address. -/
theorem marshal_format_examples :
    sampleHostUdp.marshal =
      "424007488 1 udp 2130706431 192.168.0.1 19216 typ host"
    ∧ ({ tcpHostActive with
         related_address := some { address := "10.0.0.1", port := 5000 } }
        : CandidateBase).marshal =
      "2968525201 1 tcp 2128609279 192.168.0.1 9 typ host tcptype active"
        ++ " raddr 10.0.0.1 rport 5000" := by
  constructor <;> decide

end Ice
